import Mathlib

/-!
Verification of the patient-intake chatbot core (state machine, slot merge
engine, address-validation orchestration, suggestion reverse-parser, phone
normalization, selection handling and appointment booking), shallowly embedded
from the Python sources in `assort_intake_bot`.

Python dictionary values are modelled by `PyVal`; the slots dictionary of
`ConversationState` (state_machine.py) is modelled as a total function
`String → PyVal` together with the fixed key list `slotKeys` (the dictionary's
key set is invariant: `merge_slots` only writes keys already present).
-/

namespace PatientIntake

/-- A Python value as stored in the `slots` dict: `None`, a string, a bool or
an int. -/
inductive PyVal where
  | none
  | str (s : String)
  | bool (b : Bool)
  | int (n : Int)
deriving DecidableEq, Repr

/-- Python truthiness (`not value` tests): `None`, `""`, `False` and `0` are
falsy. -/
def PyVal.truthy : PyVal → Bool
  | .none => false
  | .str s => s != ""
  | .bool b => b
  | .int n => n != 0

/-- Python `str(value)` as applied by `_is_valid_slot`. -/
def PyVal.toPyStr : PyVal → String
  | .none => "None"
  | .str s => s
  | .bool b => if b then "True" else "False"
  | .int n => toString n

/-- Python `str.isdigit()` (restricted to ASCII digits): non-empty and all
digits. -/
def pyIsdigit (s : String) : Bool :=
  (s != "") && s.data.all Char.isDigit

/-- The key set of the default `slots` dict of `ConversationState`
(state_machine.py lines 47-71). -/
def slotKeys : List String :=
  ["first_name", "last_name", "date_of_birth", "phone", "email",
   "address_line1", "address_line2", "city", "state", "zip_code",
   "address_validated",
   "insurance_payer", "insurance_plan", "insurance_member_id",
   "insurance_group_id",
   "chief_complaint", "symptoms", "symptom_duration", "severity"]

/-- The freshly created `slots` dict (state_machine.py lines 47-71): every key
maps to `None` except `address_validated`, which the source initializes to
`False`.  Keys outside the dict read as `None` (`dict.get` default). -/
def initSlots : String → PyVal := fun k =>
  if k = "address_validated" then PyVal.bool false else PyVal.none

/-- Write one key of the slots dict. -/
def setSlot (f : String → PyVal) (k : String) (v : PyVal) : String → PyVal :=
  fun s => if s = k then v else f s

/-- The states of the intake workflow (state_machine.py `State`). -/
inductive State where
  | GREET
  | CHECK_PATIENT
  | VERIFY_DOB
  | CONFIRM_RETURNING
  | COLLECT_PATIENT
  | CONFIRM_PATIENT
  | COLLECT_INSURANCE
  | CONFIRM_INSURANCE
  | COLLECT_ADDRESS
  | VALIDATE_ADDRESS
  | CONFIRM_ADDRESS
  | COLLECT_MEDICAL
  | QUERY_PROVIDERS
  | SELECT_PROVIDER
  | SELECT_TIME
  | CONFIRM
  | END
deriving DecidableEq, Repr

/-- `PHASE_REQUIREMENTS` (state_machine.py lines 29-34): required slots per
collection phase; `none` for phases absent from the dict. -/
def PHASE_REQUIREMENTS : State → Option (List String)
  | .COLLECT_PATIENT => some ["first_name", "last_name", "date_of_birth", "phone"]
  | .COLLECT_INSURANCE => some ["insurance_payer", "insurance_member_id"]
  | .COLLECT_ADDRESS => some ["address_line1", "city", "state", "zip_code"]
  | .COLLECT_MEDICAL => some ["chief_complaint"]
  | _ => none

/-- The regex shape `^\d{4}-\d{2}-\d{2}$` on a char list. -/
def dobShapeChars : List Char → Bool
  | [y1, y2, y3, y4, h1, m1, m2, h2, d1, d2] =>
    y1.isDigit && y2.isDigit && y3.isDigit && y4.isDigit && (h1 == '-') &&
    m1.isDigit && m2.isDigit && (h2 == '-') && d1.isDigit && d2.isDigit
  | _ => false

/-- Python `re.match(r"^\d{4}-\d{2}-\d{2}$", s)`: the `$` anchor also matches
just before one trailing newline. -/
def dobShape (s : String) : Bool :=
  dobShapeChars s.data ||
    ((s.data.getLast? == some '\n') && dobShapeChars s.data.dropLast)

/-- `ConversationState._is_valid_slot` (state_machine.py lines 107-122). -/
def isValidSlot (slot : String) (value : PyVal) : Bool :=
  if !value.truthy then false
  else if slot = "phone" then
    let digits := value.toPyStr
    decide (0 < digits.length) &&
      pyIsdigit (String.mk (digits.data.filter (fun c => (c != '-') && (c != ' '))))
  else if slot = "date_of_birth" then dobShape value.toPyStr
  else if slot = "zip_code" then pyIsdigit value.toPyStr
  else true

/-- `ConversationState.get_missing_slots` (state_machine.py lines 96-105):
required slots of the phase whose value is falsy or fails `_is_valid_slot`,
in table order; `[]` for phases without requirements. -/
def get_missing_slots (slots : String → PyVal) (phase : State) : List String :=
  match PHASE_REQUIREMENTS phase with
  | Option.none => []
  | Option.some reqs =>
    reqs.filter (fun slot => !(slots slot).truthy || !(isValidSlot slot (slots slot)))

/-- `ConversationState.is_phase_complete` (state_machine.py lines 129-131). -/
def is_phase_complete (slots : String → PyVal) (phase : State) : Bool :=
  (get_missing_slots slots phase).length == 0

/-- `ConversationState.merge_slots` (state_machine.py lines 133-141), rendered
as structural recursion over the `extracted.items()` sequence: a pair is
applied when its value is not `None` and its key is in the slots dict; a
differing value is overwritten and its key recorded, in visit order.  Returns
the updated slots function and the changed-key list. -/
def merge_slots (slots : String → PyVal) :
    List (String × PyVal) → (String → PyVal) × List String
  | [] => (slots, [])
  | (k, v) :: rest =>
    if v ≠ PyVal.none ∧ k ∈ slotKeys then
      if slots k ≠ v then
        let r := merge_slots (setSlot slots k v) rest
        (r.1, k :: r.2)
      else merge_slots slots rest
    else merge_slots slots rest

/-- One entry of `state.matched_providers` as built by `handle_query_providers`
(main.py lines 542-545); the float rating is modelled as a rational since the
core only copies and displays it. -/
structure ProviderInfo where
  id : String
  name : String
  specialty : Option String
  rating : Rat
deriving DecidableEq, Repr

/-- One entry of `state.available_slots` as built by `handle_select_provider`
(main.py lines 573-576). -/
structure ApptSlot where
  id : String
  date : String
  time : String
deriving DecidableEq, Repr

/-- `ConversationState` (state_machine.py lines 37-94), restricted to the
fields read or written by the operations modelled here (`pending_name_matches`
and the chat transcript `messages` are never touched by them). -/
structure ConvState where
  current_state : State
  patient_id : Option String
  is_returning : Bool
  slots : String → PyVal
  address_validation_attempts : Nat
  pending_address_suggestion : Option String
  matched_providers : List ProviderInfo
  selected_provider_id : Option String
  selected_provider_name : Option String
  available_slots : List ApptSlot
  selected_appointment_id : Option String
  selected_date : Option String
  selected_time : Option String

/-- `ConversationState()` with all dataclass defaults. -/
def initConvState : ConvState where
  current_state := State.GREET
  patient_id := Option.none
  is_returning := false
  slots := initSlots
  address_validation_attempts := 0
  pending_address_suggestion := Option.none
  matched_providers := []
  selected_provider_id := Option.none
  selected_provider_name := Option.none
  available_slots := []
  selected_appointment_id := Option.none
  selected_date := Option.none
  selected_time := Option.none

/-- The result object of `validate_address` (address_validator.py lines 78-90);
`corrected_components` is the (possibly empty) dict of corrected fields. -/
structure AVResult where
  is_valid : Bool
  input_address : String
  suggested_address : Option String
  corrected_components : List (String × PyVal)

/-- Python `dict.update` over the slots function. -/
def updateSlots (f : String → PyVal) (kvs : List (String × PyVal)) : String → PyVal :=
  kvs.foldl (fun g kv => setSlot g kv.1 kv.2) f

/-- `do_address_validation` (main.py lines 216-260): the state effects.  The
external validator call is replaced by its result `result`; the returned chat
text (LLM-generated) is elided. -/
def do_address_validation (st : ConvState) (result : AVResult) : ConvState :=
  let st1 := { st with address_validation_attempts := st.address_validation_attempts + 1 }
  if result.is_valid then
    let slots1 := setSlot st1.slots "address_validated" (PyVal.bool true)
    let slots2 :=
      if result.corrected_components ≠ [] then updateSlots slots1 result.corrected_components
      else slots1
    { st1 with slots := slots2, current_state := State.CONFIRM_ADDRESS }
  else if 2 ≤ st1.address_validation_attempts then
    { st1 with slots := setSlot st1.slots "address_validated" (PyVal.bool false),
               current_state := State.CONFIRM_ADDRESS }
  else
    { st1 with pending_address_suggestion := result.suggested_address,
               current_state := State.VALIDATE_ADDRESS }

/-- The result of `classify_intent` (slot_extractor.py `UserIntent`). -/
structure Intent where
  is_affirmative : Bool
  is_negative : Bool
  wants_to_update : Bool
  field_to_update : Option String

/-- The `address_fields` set of `handle_confirm_returning` (main.py line 148). -/
def addressFieldsList : List String := ["address_line1", "city", "state", "zip_code"]

/-- `handle_confirm_returning` (main.py lines 135-190): the state effects.
External calls are replaced by their results (`intent`, `extracted`,
`avResult`); chat text is elided.  Note the address-change reset (lines
151-154) is guarded only by `address_changed`, not by a previously-validated
check. -/
def handle_confirm_returning (st : ConvState) (intent : Intent)
    (extracted : List (String × PyVal)) (avResult : AVResult) : ConvState :=
  let m := merge_slots st.slots extracted
  let newly_filled := m.2
  let st1 := { st with slots := m.1 }
  let address_changed := newly_filled.any (fun f => addressFieldsList.contains f)
  let st2 :=
    if address_changed then
      { st1 with slots := setSlot st1.slots "address_validated" PyVal.none,
                 address_validation_attempts := 0 }
    else st1
  if intent.wants_to_update || intent.is_negative then
    if newly_filled ≠ [] then
      if address_changed && is_phase_complete st2.slots State.COLLECT_ADDRESS then
        do_address_validation st2 avResult
      else st2
    else st2
  else if intent.is_affirmative then
    { st2 with current_state := State.COLLECT_MEDICAL }
  else if newly_filled ≠ [] then
    if address_changed && is_phase_complete st2.slots State.COLLECT_ADDRESS then
      do_address_validation st2 avResult
    else st2
  else st2

/-- `handle_select_provider` (main.py lines 557-600): the state effects.  The
LLM interpretation is replaced by its result `selected_idx` (already 0-based)
and the repository slot query by `slotsFor`; chat text is elided. -/
def handle_select_provider (st : ConvState) (selected_idx : Option Nat)
    (slotsFor : String → List ApptSlot) : ConvState :=
  match selected_idx with
  | Option.some idx =>
    if h : idx < st.matched_providers.length then
      let provider := st.matched_providers.get ⟨idx, h⟩
      let st1 := { st with selected_provider_id := Option.some provider.id,
                           selected_provider_name := Option.some provider.name,
                           available_slots := slotsFor provider.id }
      if st1.available_slots ≠ [] then { st1 with current_state := State.SELECT_TIME }
      else st1
    else st
  | Option.none => st

/-- `handle_select_time` (main.py lines 603-652): the state effects, with the
LLM interpretation replaced by its result `selected_idx`; chat text elided. -/
def handle_select_time (st : ConvState) (selected_idx : Option Nat) : ConvState :=
  match selected_idx with
  | Option.some idx =>
    if h : idx < st.available_slots.length then
      let slot := st.available_slots.get ⟨idx, h⟩
      { st with selected_appointment_id := Option.some slot.id,
                selected_date := Option.some slot.date,
                selected_time := Option.some slot.time,
                current_state := State.CONFIRM }
    else st
  | Option.none => st

/-- Numeric value of a digit run. -/
def digitsToNat (ds : List Char) : Nat :=
  ds.foldl (fun n c => 10 * n + (c.toNat - 48)) 0

/-- `re.findall(r"\d+", s)[0]`: the first maximal digit run, if any. -/
def firstNumber (s : String) : Option Nat :=
  let rest := s.data.dropWhile (fun c => !c.isDigit)
  match rest.takeWhile Char.isDigit with
  | [] => Option.none
  | ds => Option.some (digitsToNat ds)

/-- The deterministic post-processing of `interpret_selection`
(conversation.py lines 450-505): `None` for an empty option list; otherwise
parse the first number of the LLM reply and convert it to a 0-based index when
it lies in `1..numOptions`; `0`, out-of-range numbers and number-free replies
give `None`. -/
def interpret_selection_result (llmReply : String) (numOptions : Nat) : Option Nat :=
  if numOptions = 0 then Option.none
  else
    match firstNumber llmReply with
    | Option.some n =>
      if 1 ≤ n ∧ n ≤ numOptions then Option.some (n - 1) else Option.none
    | Option.none => Option.none

/-- `ExtractedSlots.normalize_phone` (slot_extractor.py lines 78-91). -/
def normalize_phone (v : String) : Option String :=
  if v = "" then Option.none
  else
    let digits := String.mk (v.data.filter Char.isDigit)
    if digits = "" then Option.none
    else if digits.length = 11 ∧ digits.data.head? = Option.some '1' then
      Option.some (String.mk digits.data.tail)
    else Option.some digits

/-- Python `\s` on the ASCII range. -/
def pySpace (c : Char) : Bool :=
  c == ' ' || c == '\t' || c == '\n' || c == '\r' || c == '\x0b' || c == '\x0c'

/-- Python `str.strip()` (ASCII whitespace) on a char list. -/
def pyStripChars (l : List Char) : List Char :=
  ((l.dropWhile pySpace).reverse.dropWhile pySpace).reverse

/-- Python `str.split(",")` on a char list: split at every comma; the empty
string yields one empty part. -/
def pySplitCommaChars : List Char → List (List Char)
  | [] => [[]]
  | c :: rest =>
    let r := pySplitCommaChars rest
    if c = ',' then [] :: r
    else
      match r with
      | h :: t => (c :: h) :: t
      | [] => [[c]]

/-- `re.sub(r",?\s*(USA|US|United States)$", "", s, flags=re.IGNORECASE)`: if
the string ends with a country token (case-insensitively), remove it together
with the whitespace run before it and one comma before that (the leftmost
match of the anchored pattern). -/
def stripCountryChars (l : List Char) : List Char :=
  let up := l.map Char.toUpper
  let tokLen : Option Nat :=
    if "UNITED STATES".data.isSuffixOf up then Option.some 13
    else if "USA".data.isSuffixOf up then Option.some 3
    else if "US".data.isSuffixOf up then Option.some 2
    else Option.none
  match tokLen with
  | Option.none => l
  | Option.some n =>
    let pre := l.take (l.length - n)
    let r1 := pre.reverse.dropWhile pySpace
    let r2 := match r1 with
      | ',' :: t => t
      | _ => r1
    r2.reverse

/-- `[A-Z]`. -/
def isUpperAZ (c : Char) : Bool := ('A' ≤ c) && (c ≤ 'Z')

/-- The regex `^([A-Z]{2})\s+(\d{5})(?:-\d{4})?$` of `parse_suggested_address`
(applied to an already stripped part, so the `$`-before-newline case cannot
arise): on success, the state and ZIP groups. -/
def matchStateZip (s : String) : Option (String × String) :=
  match s.data with
  | c1 :: c2 :: rest =>
    if isUpperAZ c1 && isUpperAZ c2 then
      if !(rest.takeWhile pySpace).isEmpty then
        let afterWs := rest.dropWhile pySpace
        let zip := afterWs.take 5
        let tail5 := afterWs.drop 5
        if (zip.length == 5) && zip.all Char.isDigit then
          match tail5 with
          | [] => Option.some (String.mk [c1, c2], String.mk zip)
          | '-' :: d4 =>
            if (d4.length == 4) && d4.all Char.isDigit then
              Option.some (String.mk [c1, c2], String.mk zip)
            else Option.none
          | _ => Option.none
        else Option.none
      else Option.none
    else Option.none
  | _ => Option.none

/-- The components dict built by `parse_suggested_address`; `state` is present
exactly when the function returns non-`None`, `zip_code` only on a full
state-ZIP match. -/
structure ParsedAddress where
  address_line1 : String
  city : String
  state : String
  zip_code : Option String
deriving DecidableEq, Repr

/-- The body of `parse_suggested_address` (main.py lines 276-298) after
splitting the cleaned string into trimmed comma-separated parts: fewer than 3
parts give `None`; otherwise the street and city are the first two parts and
the state and ZIP come from the THIRD part (`parts[2]`), via the state-ZIP
regex or the bare two-letter fallback. -/
def parse_parts : List String → Option ParsedAddress
  | line1 :: city :: state_zip :: _ =>
    match matchStateZip state_zip with
    | Option.some (st, zip) => Option.some ⟨line1, city, st, Option.some zip⟩
    | Option.none =>
      if (state_zip.length == 2) && state_zip.data.all Char.isAlpha then
        Option.some ⟨line1, city, String.mk (state_zip.data.map Char.toUpper), Option.none⟩
      else Option.none
  | _ => Option.none

/-- `parse_suggested_address` (main.py lines 263-298): strip the input, remove
a trailing country token, split on commas into stripped parts, and parse. -/
def parse_suggested_address (suggested : String) : Option ParsedAddress :=
  parse_parts
    ((pySplitCommaChars (stripCountryChars (pyStripChars suggested.data))).map
      (fun p => String.mk (pyStripChars p)))

/-- Modelled from the spec: the claim's reading of the reverse-parser, which
derives the state and ZIP from the LAST comma-separated part rather than the
third.  Everything else follows `parse_suggested_address`. -/
def parse_suggested_address_specLast (suggested : String) : Option ParsedAddress :=
  let parts :=
    (pySplitCommaChars (stripCountryChars (pyStripChars suggested.data))).map
      (fun p => String.mk (pyStripChars p))
  match parts with
  | line1 :: city :: p3 :: rest =>
    let state_zip := rest.getLastD p3
    match matchStateZip state_zip with
    | Option.some (st, zip) => Option.some ⟨line1, city, st, Option.some zip⟩
    | Option.none =>
      if (state_zip.length == 2) && state_zip.data.all Char.isAlpha then
        Option.some ⟨line1, city, String.mk (state_zip.data.map Char.toUpper), Option.none⟩
      else Option.none
  | _ => Option.none

/-- A row of the `appointments` table (provider_repository.py `Appointment`). -/
structure Appointment where
  id : String
  provider_id : String
  date : String
  time : String
  status : String
  patient_id : Option String
  visit_id : Option String
  reason : Option String
  notes : Option String
  booked_at : Option String
deriving DecidableEq, Repr

/-- The WHERE clause of the conditional UPDATE in `book_appointment`: the row
has the requested id and is still unbooked (`patient_id IS NULL`) and
available. -/
def bookCond (appointment_id : String) (a : Appointment) : Bool :=
  (a.id == appointment_id) && (a.patient_id == Option.none) && (a.status == "available")

/-- `ProviderRepository.get_appointment_by_id` (provider_repository.py lines
116-123): `fetchone` on a lookup by id. -/
def get_appointment_by_id (db : List Appointment) (appointment_id : String) :
    Option Appointment :=
  db.find? (fun a => a.id == appointment_id)

/-- `ProviderRepository.book_appointment` (provider_repository.py lines
125-154): a single conditional UPDATE.  Zero rows affected (`rowcount == 0`)
returns the unchanged table and `None` — whether the id is absent or the row
is no longer available; otherwise the updated table and the row fetched back
by id. -/
def book_appointment (db : List Appointment) (appointment_id patient_id : String)
    (visit_id reason : Option String) (now : String) :
    List Appointment × Option Appointment :=
  let updated := db.map (fun a =>
    if bookCond appointment_id a then
      { a with patient_id := Option.some patient_id, visit_id := visit_id,
               status := "booked", reason := reason, booked_at := Option.some now }
    else a)
  if db.countP (fun a => bookCond appointment_id a) = 0 then (db, Option.none)
  else (updated, get_appointment_by_id updated appointment_id)

/-! ## Theorems -/

/-- Phase completion is literally emptiness of the missing-slot list. -/
theorem is_phase_complete_iff (slots : String → PyVal) (phase : State) :
    is_phase_complete slots phase = true ↔ get_missing_slots slots phase = [] := by
  unfold is_phase_complete
  simp [List.length_eq_zero]

/-- For a phase with requirements, the missing list is the order-preserving
filter of the requirement list by the falsy-or-invalid test. -/
theorem missing_filter_facts (slots : String → PyVal) (phase : State)
    (reqs : List String) (hr : PHASE_REQUIREMENTS phase = Option.some reqs) :
    List.Sublist (get_missing_slots slots phase) reqs ∧
    ∀ f, f ∈ get_missing_slots slots phase ↔
      f ∈ reqs ∧ ((slots f).truthy = false ∨ isValidSlot f (slots f) = false) := by
  have he : get_missing_slots slots phase =
      reqs.filter (fun slot => !(slots slot).truthy || !(isValidSlot slot (slots slot))) := by
    unfold get_missing_slots
    rw [hr]
  constructor
  · rw [he]
    exact List.filter_sublist reqs
  · intro f
    rw [he, List.mem_filter]
    simp [Bool.or_eq_true, Bool.not_eq_true']

/-- Claim C1: for every collection phase, `get_missing_slots` is empty iff
`is_phase_complete` holds; it is a subsequence, in table order, of the phase's
required fields; and a field appears in it exactly when it is required and its
value is falsy or fails the per-field validity predicate. -/
theorem missing_slots_characterization (slots : String → PyVal) (phase : State)
    (h : phase ∈ [State.COLLECT_PATIENT, State.COLLECT_INSURANCE,
      State.COLLECT_ADDRESS, State.COLLECT_MEDICAL]) :
    (get_missing_slots slots phase = [] ↔ is_phase_complete slots phase = true) ∧
    ∃ reqs, PHASE_REQUIREMENTS phase = Option.some reqs ∧
      List.Sublist (get_missing_slots slots phase) reqs ∧
      ∀ f, f ∈ get_missing_slots slots phase ↔
        f ∈ reqs ∧ ((slots f).truthy = false ∨ isValidSlot f (slots f) = false) := by
  refine ⟨(is_phase_complete_iff slots phase).symm, ?_⟩
  simp only [List.mem_cons, List.not_mem_nil, or_false] at h
  rcases h with rfl | rfl | rfl | rfl
  · exact ⟨_, rfl, missing_filter_facts slots State.COLLECT_PATIENT
      ["first_name", "last_name", "date_of_birth", "phone"] rfl⟩
  · exact ⟨_, rfl, missing_filter_facts slots State.COLLECT_INSURANCE
      ["insurance_payer", "insurance_member_id"] rfl⟩
  · exact ⟨_, rfl, missing_filter_facts slots State.COLLECT_ADDRESS
      ["address_line1", "city", "state", "zip_code"] rfl⟩
  · exact ⟨_, rfl, missing_filter_facts slots State.COLLECT_MEDICAL
      ["chief_complaint"] rfl⟩

/-- Witness for C1: the fresh slots record at COLLECT_PATIENT. -/
theorem missing_slots_characterization_witness :
    State.COLLECT_PATIENT ∈ [State.COLLECT_PATIENT, State.COLLECT_INSURANCE,
      State.COLLECT_ADDRESS, State.COLLECT_MEDICAL] ∧
    ((get_missing_slots initSlots State.COLLECT_PATIENT = [] ↔
        is_phase_complete initSlots State.COLLECT_PATIENT = true) ∧
      ∃ reqs, PHASE_REQUIREMENTS State.COLLECT_PATIENT = Option.some reqs ∧
        List.Sublist (get_missing_slots initSlots State.COLLECT_PATIENT) reqs ∧
        ∀ f, f ∈ get_missing_slots initSlots State.COLLECT_PATIENT ↔
          f ∈ reqs ∧
            ((initSlots f).truthy = false ∨ isValidSlot f (initSlots f) = false)) :=
  ⟨by decide, missing_slots_characterization initSlots State.COLLECT_PATIENT (by decide)⟩

/-- If every applicable pair of the payload already agrees with the stored
slots, `merge_slots` leaves the slots unchanged and reports no changes. -/
theorem merge_slots_no_change (slots : String → PyVal) (l : List (String × PyVal))
    (h : ∀ kv ∈ l, kv.2 ≠ PyVal.none → kv.1 ∈ slotKeys → slots kv.1 = kv.2) :
    merge_slots slots l = (slots, []) := by
  induction l with
  | nil => rfl
  | cons kv rest ih =>
    obtain ⟨k, v⟩ := kv
    have hrest : ∀ kv ∈ rest, kv.2 ≠ PyVal.none → kv.1 ∈ slotKeys → slots kv.1 = kv.2 :=
      fun kv hm => h kv (List.mem_cons_of_mem _ hm)
    simp only [merge_slots]
    by_cases hg : v ≠ PyVal.none ∧ k ∈ slotKeys
    · rw [if_pos hg]
      have hkv : slots k = v := h (k, v) (List.mem_cons_self _ _) hg.1 hg.2
      rw [if_neg (fun hne => hne hkv)]
      exact ih hrest
    · rw [if_neg hg]
      exact ih hrest

/-- `merge_slots` does not touch keys that do not occur in the payload. -/
theorem merge_slots_untouched (l : List (String × PyVal)) :
    ∀ (slots : String → PyVal) (k : String), k ∉ l.map Prod.fst →
      (merge_slots slots l).1 k = slots k := by
  induction l with
  | nil => intro slots k _; rfl
  | cons kv rest ih =>
    obtain ⟨k1, v1⟩ := kv
    intro slots k h
    have hk : ¬(k = k1 ∨ k ∈ rest.map Prod.fst) := by simpa using h
    push_neg at hk
    simp only [merge_slots]
    by_cases hg : v1 ≠ PyVal.none ∧ k1 ∈ slotKeys
    · rw [if_pos hg]
      by_cases hne : slots k1 ≠ v1
      · rw [if_pos hne]
        show (merge_slots (setSlot slots k1 v1) rest).1 k = slots k
        rw [ih _ _ hk.2]
        simp [setSlot, hk.1]
      · rw [if_neg hne]
        exact ih _ _ hk.2
    · rw [if_neg hg]
      exact ih _ _ hk.2

/-- With nodup keys (a Python dict), one merge stores every applicable pair's
value. -/
theorem merge_slots_stores (l : List (String × PyVal)) :
    ∀ (slots : String → PyVal), (l.map Prod.fst).Nodup →
      ∀ kv ∈ l, kv.2 ≠ PyVal.none → kv.1 ∈ slotKeys →
        (merge_slots slots l).1 kv.1 = kv.2 := by
  induction l with
  | nil => intro slots _ kv hm; exact absurd hm (List.not_mem_nil kv)
  | cons hd rest ih =>
    obtain ⟨k1, v1⟩ := hd
    intro slots hnd kv hm hv hk
    rw [List.map_cons, List.nodup_cons] at hnd
    rcases List.mem_cons.mp hm with heq | hm'
    · subst heq
      simp only [merge_slots]
      rw [if_pos ⟨hv, hk⟩]
      by_cases hne : slots k1 ≠ v1
      · rw [if_pos hne]
        show (merge_slots (setSlot slots k1 v1) rest).1 k1 = v1
        rw [merge_slots_untouched rest _ k1 hnd.1]
        simp [setSlot]
      · rw [if_neg hne]
        push_neg at hne
        rw [merge_slots_untouched rest slots k1 hnd.1]
        exact hne
    · simp only [merge_slots]
      by_cases hg : v1 ≠ PyVal.none ∧ k1 ∈ slotKeys
      · rw [if_pos hg]
        by_cases hne : slots k1 ≠ v1
        · rw [if_pos hne]
          show (merge_slots (setSlot slots k1 v1) rest).1 kv.1 = kv.2
          exact ih _ hnd.2 kv hm' hv hk
        · rw [if_neg hne]
          exact ih _ hnd.2 kv hm' hv hk
      · rw [if_neg hg]
        exact ih _ hnd.2 kv hm' hv hk

/-- Claim C2: merging the identical payload (a dict, so with nodup keys) twice
in a row reports an empty changed-field list on the second call. -/
theorem merge_idempotent_second_call (slots : String → PyVal)
    (extracted : List (String × PyVal))
    (h : (extracted.map Prod.fst).Nodup) :
    (merge_slots (merge_slots slots extracted).1 extracted).2 = [] := by
  rw [merge_slots_no_change _ _ (merge_slots_stores extracted slots h)]

/-- Witness for C2: a two-field payload merged twice into the fresh slots. -/
theorem merge_idempotent_second_call_witness :
    (([("first_name", PyVal.str "Jane"), ("phone", PyVal.str "5559876543")].map
      Prod.fst).Nodup) ∧
    (merge_slots (merge_slots initSlots
        [("first_name", PyVal.str "Jane"), ("phone", PyVal.str "5559876543")]).1
      [("first_name", PyVal.str "Jane"), ("phone", PyVal.str "5559876543")]).2 = [] :=
  ⟨by decide, merge_idempotent_second_call initSlots
    [("first_name", PyVal.str "Jane"), ("phone", PyVal.str "5559876543")] (by decide)⟩

/-- Claim C3: whenever `do_address_validation` runs, validation fails, and the
incremented attempt counter is at least 2, the session advances to
CONFIRM_ADDRESS with `address_validated` set to False — never staying in
VALIDATE_ADDRESS. -/
theorem address_retry_bound (st : ConvState) (result : AVResult)
    (hfail : result.is_valid = false)
    (hatt : 2 ≤ st.address_validation_attempts + 1) :
    (do_address_validation st result).current_state = State.CONFIRM_ADDRESS ∧
    (do_address_validation st result).slots "address_validated" = PyVal.bool false ∧
    (do_address_validation st result).current_state ≠ State.VALIDATE_ADDRESS := by
  unfold do_address_validation
  simp only [hfail, Bool.false_eq_true, if_false]
  rw [if_pos hatt]
  refine ⟨rfl, ?_, by simp⟩
  simp [setSlot]

/-- A second-attempt failure scenario. -/
def c3State : ConvState :=
  { initConvState with current_state := State.VALIDATE_ADDRESS,
                       address_validation_attempts := 1 }

/-- A failed validation result with no suggestion. -/
def c3Result : AVResult :=
  { is_valid := false, input_address := "x", suggested_address := Option.none,
    corrected_components := [] }

/-- Witness for C3: the second failed attempt gives up and advances. -/
theorem address_retry_bound_witness :
    (c3Result.is_valid = false ∧ 2 ≤ c3State.address_validation_attempts + 1) ∧
    ((do_address_validation c3State c3Result).current_state = State.CONFIRM_ADDRESS ∧
     (do_address_validation c3State c3Result).slots "address_validated" = PyVal.bool false ∧
     (do_address_validation c3State c3Result).current_state ≠ State.VALIDATE_ADDRESS) :=
  ⟨⟨rfl, by decide⟩, address_retry_bound c3State c3Result rfl (by decide)⟩

/-- Claim C4 counterexample: the freshly created Slot Record does not hold the
absent value for `address_validated` — the source initializes it to False, so
its tri-state "unknown" reading is not the session-start value. -/
theorem init_address_validated_counterexample :
    initConvState.slots "address_validated" = PyVal.bool false ∧
    ¬ initConvState.slots "address_validated" = PyVal.none := by decide

/-- Claim C4 amended: every field of the freshly created Slot Record holds the
absent value (None, never an empty string), except `address_validated`, which
is initialized to False rather than None. -/
theorem init_slots_amended (k : String) (hk : k ≠ "address_validated") :
    initSlots k = PyVal.none ∧ initSlots "address_validated" = PyVal.bool false := by
  refine ⟨?_, by decide⟩
  unfold initSlots
  rw [if_neg hk]

/-- Witness for the amended C4 at the first_name field. -/
theorem init_slots_amended_witness :
    ("first_name" ≠ "address_validated") ∧
    (initSlots "first_name" = PyVal.none ∧
     initSlots "address_validated" = PyVal.bool false) :=
  ⟨by decide, init_slots_amended "first_name" (by decide)⟩

/-- Claim C10: an extracted payload mapping a recognized field to the empty
string, while the stored value differs, is stored and reported as changed by
`merge_slots`, yet the field still counts as missing for phase completion. -/
theorem empty_string_merge_changed_yet_missing (slots : String → PyVal)
    (key : String) (phase : State) (reqs : List String)
    (hk : key ∈ slotKeys) (hne : slots key ≠ PyVal.str "")
    (hreq : PHASE_REQUIREMENTS phase = Option.some reqs) (hkr : key ∈ reqs) :
    (merge_slots slots [(key, PyVal.str "")]).2 = [key] ∧
    (merge_slots slots [(key, PyVal.str "")]).1 key = PyVal.str "" ∧
    key ∈ get_missing_slots (merge_slots slots [(key, PyVal.str "")]).1 phase := by
  have hg : (PyVal.str "" ≠ PyVal.none ∧ key ∈ slotKeys) := ⟨by simp, hk⟩
  have h1 : merge_slots slots [(key, PyVal.str "")] =
      (setSlot slots key (PyVal.str ""), [key]) := by
    simp only [merge_slots]
    rw [if_pos hg, if_pos hne]
  rw [h1]
  refine ⟨rfl, ?_, ?_⟩
  · simp [setSlot]
  · apply ((missing_filter_facts _ phase reqs hreq).2 key).mpr
    refine ⟨hkr, Or.inl ?_⟩
    simp [setSlot, PyVal.truthy]

/-- Witness for C10: an empty first_name merged into the fresh slots. -/
theorem empty_string_merge_witness :
    ("first_name" ∈ slotKeys ∧ initSlots "first_name" ≠ PyVal.str "" ∧
     PHASE_REQUIREMENTS State.COLLECT_PATIENT =
       Option.some ["first_name", "last_name", "date_of_birth", "phone"] ∧
     "first_name" ∈ ["first_name", "last_name", "date_of_birth", "phone"]) ∧
    ((merge_slots initSlots [("first_name", PyVal.str "")]).2 = ["first_name"] ∧
     (merge_slots initSlots [("first_name", PyVal.str "")]).1 "first_name" = PyVal.str "" ∧
     "first_name" ∈ get_missing_slots
       (merge_slots initSlots [("first_name", PyVal.str "")]).1 State.COLLECT_PATIENT) :=
  ⟨⟨by decide, by decide, rfl, by decide⟩,
   empty_string_merge_changed_yet_missing initSlots "first_name" State.COLLECT_PATIENT
     ["first_name", "last_name", "date_of_birth", "phone"]
     (by decide) (by decide) rfl (by decide)⟩

/-- `do_address_validation` increments the attempt counter by exactly 1 on
every call, on all branches. -/
theorem do_address_validation_increments (st : ConvState) (result : AVResult) :
    (do_address_validation st result).address_validation_attempts =
      st.address_validation_attempts + 1 := by
  simp only [do_address_validation]
  split
  · rfl
  · split <;> rfl

/-- A returning-patient state whose address was never successfully validated
(flag False), with one validation attempt already spent and a city on file. -/
def c5State : ConvState :=
  { initConvState with current_state := State.CONFIRM_RETURNING,
                       is_returning := true,
                       address_validation_attempts := 1,
                       slots := setSlot initSlots "city" (PyVal.str "Oldtown") }

/-- An intent with every flag off (unclear reply). -/
def c5Intent : Intent :=
  { is_affirmative := false, is_negative := false, wants_to_update := false,
    field_to_update := Option.none }

/-- A failed validation result. -/
def c5AV : AVResult :=
  { is_valid := false, input_address := "", suggested_address := Option.none,
    corrected_components := [] }

/-- Claim C5 counterexample: `handle_confirm_returning` resets the attempt
counter to 0 on an address-field change even though the address was never
previously validated (the flag is False, not True). -/
theorem attempts_reset_without_prior_validation :
    c5State.address_validation_attempts = 1 ∧
    c5State.slots "address_validated" = PyVal.bool false ∧
    (handle_confirm_returning c5State c5Intent
      [("city", PyVal.str "Newtown")] c5AV).address_validation_attempts = 0 ∧
    (handle_confirm_returning c5State c5Intent
      [("city", PyVal.str "Newtown")] c5AV).slots "address_validated" = PyVal.none := by
  decide

/-- Claim C5 amended: the counter increments by exactly 1 per validation call;
`handle_confirm_returning` resets it to 0 whenever the merged updates change
an address field — regardless of whether the address was previously
validated — after which at most one validation call can raise it to 1; when no
address field changed the handler leaves it unchanged.  No other operation
modifies it. -/
theorem attempts_evolution (st : ConvState) (intent : Intent)
    (extracted : List (String × PyVal)) (avResult : AVResult) :
    (∀ (st2 : ConvState) (r : AVResult),
      (do_address_validation st2 r).address_validation_attempts =
        st2.address_validation_attempts + 1) ∧
    (((merge_slots st.slots extracted).2.any (fun f => addressFieldsList.contains f)) = true →
      (handle_confirm_returning st intent extracted
          avResult).address_validation_attempts = 0 ∨
      (handle_confirm_returning st intent extracted
          avResult).address_validation_attempts = 1) ∧
    (((merge_slots st.slots extracted).2.any (fun f => addressFieldsList.contains f)) = false →
      (handle_confirm_returning st intent extracted
          avResult).address_validation_attempts = st.address_validation_attempts) := by
  refine ⟨fun st2 r => do_address_validation_increments st2 r, ?_, ?_⟩
  · intro haddr
    simp only [handle_confirm_returning, haddr, if_true, Bool.true_and]
    split
    · split
      · split
        · rw [do_address_validation_increments]
          right
          rfl
        · left
          rfl
      · left
        rfl
    · split
      · left
        rfl
      · split
        · split
          · rw [do_address_validation_increments]
            right
            rfl
          · left
            rfl
        · left
          rfl
  · intro haddr
    simp only [handle_confirm_returning, haddr, Bool.false_eq_true, if_false,
      Bool.false_and]
    split
    · split <;> rfl
    · split
      · rfl
      · split <;> rfl

/-- Witness for the amended C5: the concrete address change of the C5
counterexample lands the counter in {0, 1}. -/
theorem attempts_evolution_witness :
    ((merge_slots c5State.slots [("city", PyVal.str "Newtown")]).2.any
      (fun f => addressFieldsList.contains f)) = true ∧
    ((handle_confirm_returning c5State c5Intent
        [("city", PyVal.str "Newtown")] c5AV).address_validation_attempts = 0 ∨
     (handle_confirm_returning c5State c5Intent
        [("city", PyVal.str "Newtown")] c5AV).address_validation_attempts = 1) :=
  ⟨by decide,
   (attempts_evolution c5State c5Intent [("city", PyVal.str "Newtown")] c5AV).2.1
     (by decide)⟩

/-- Claim C6 counterexample: the reverse-parser reads the THIRD
comma-separated part, not the LAST one — on a four-part suggestion whose last
part is a valid state-ZIP the actual parser returns None, while the
spec-modelled last-part parser succeeds (and that last part does match the
state-ZIP pattern). -/
theorem parse_third_not_last_counterexample :
    parse_suggested_address "123 Main St, Suite 5, Springfield, IL 62704" =
      Option.none ∧
    parse_suggested_address_specLast "123 Main St, Suite 5, Springfield, IL 62704" =
      Option.some ⟨"123 Main St", "Suite 5", "IL", Option.some "62704"⟩ ∧
    matchStateZip "IL 62704" = Option.some ("IL", "62704") := by
  decide

/-- Claim C6 amended: the reverse-parser strips a trailing country token,
splits on commas, returns absent when fewer than 3 parts remain, and derives
the state and ZIP from the THIRD comma-separated part (the one after the
city), ignoring any later parts, via the two-letter-state + 5-digit-ZIP
pattern with the bare two-letter-state fallback. -/
theorem parse_suggested_address_amended :
    (∀ parts : List String, parts.length < 3 → parse_parts parts = Option.none) ∧
    (∀ p1 p2 p3 rest, parse_parts (p1 :: p2 :: p3 :: rest) = parse_parts [p1, p2, p3]) ∧
    parse_parts ["123 Main St", "Springfield", "IL 62704"] =
      Option.some ⟨"123 Main St", "Springfield", "IL", Option.some "62704"⟩ ∧
    parse_parts ["123 Main St", "Springfield", "il"] =
      Option.some ⟨"123 Main St", "Springfield", "IL", Option.none⟩ ∧
    parse_parts ["123 Main St", "Springfield", "Illinois"] = Option.none ∧
    stripCountryChars ("123 Main St, Springfield, IL 62704, USA".data) =
      "123 Main St, Springfield, IL 62704".data := by
  refine ⟨?_, ?_, by decide, by decide, by decide, by decide⟩
  · intro parts h
    rcases parts with _ | ⟨a, _ | ⟨b, _ | ⟨c, r⟩⟩⟩
    · rfl
    · rfl
    · rfl
    · simp [List.length_cons] at h
      omega
  · intro p1 p2 p3 rest
    rfl

/-- Witness for the amended C6: a two-part list parses to None and a fourth
part is ignored. -/
theorem parse_suggested_address_amended_witness :
    (["only", "two"].length < 3 ∧ parse_parts ["only", "two"] = Option.none) ∧
    parse_parts ["a", "b", "c", "d"] = parse_parts ["a", "b", "c"] :=
  ⟨⟨by decide, parse_suggested_address_amended.1 ["only", "two"] (by decide)⟩,
   parse_suggested_address_amended.2.1 "a" "b" "c" ["d"]⟩

/-- An appointment row that exists but is already booked. -/
def bookedAppt : Appointment :=
  { id := "a1", provider_id := "prov1", date := "2026-01-01", time := "10:00",
    status := "booked", patient_id := Option.some "p0", visit_id := Option.none,
    reason := Option.none, notes := Option.none, booked_at := Option.some "t0" }

/-- Claim C7 counterexample: booking a nonexistent id and booking an
already-booked slot produce the same report (None) — the zero-rows-affected
outcome is not reported distinctly from not-found, although in the second
database the id does exist. -/
theorem booking_outcomes_indistinct :
    (book_appointment [] "a1" "p1" Option.none Option.none "t1").2 = Option.none ∧
    (book_appointment [bookedAppt] "a1" "p1" Option.none Option.none "t1").2 =
      Option.none ∧
    get_appointment_by_id [bookedAppt] "a1" = Option.some bookedAppt := by
  decide

/-- Claim C7 amended: booking is a single conditional update — only rows that
match the id and are still unbooked and available are modified — and whenever
zero rows are affected it returns None and leaves the table unchanged, whether
the id is missing or the slot is no longer available; the two outcomes are not
distinguished (and the caller in `save_patient_data` ignores the result). -/
theorem book_appointment_conditional (db : List Appointment) (aid pid : String)
    (vid r : Option String) (now : String) :
    (db.countP (fun a => bookCond aid a) = 0 →
      book_appointment db aid pid vid r now = (db, Option.none)) ∧
    (book_appointment db aid pid vid r now).1.length = db.length ∧
    (∀ (i : Nat) (a : Appointment), db[i]? = Option.some a → bookCond aid a = false →
      (book_appointment db aid pid vid r now).1[i]? = Option.some a) := by
  refine ⟨?_, ?_, ?_⟩
  · intro h0
    unfold book_appointment
    rw [if_pos h0]
  · unfold book_appointment
    by_cases h0 : db.countP (fun a => bookCond aid a) = 0
    · rw [if_pos h0]
    · rw [if_neg h0]
      exact List.length_map _ _
  · intro i a ha hcond
    unfold book_appointment
    by_cases h0 : db.countP (fun a => bookCond aid a) = 0
    · rw [if_pos h0]
      exact ha
    · rw [if_neg h0]
      show (db.map _)[i]? = Option.some a
      rw [List.getElem?_map, ha]
      simp [hcond]

/-- Witness for the amended C7: a one-row table, miss by id and miss by
availability. -/
theorem book_appointment_conditional_witness :
    ([bookedAppt].countP (fun a => bookCond "zzz" a) = 0 ∧
     book_appointment [bookedAppt] "zzz" "p1" Option.none Option.none "t1" =
       ([bookedAppt], Option.none)) ∧
    ([bookedAppt][0]? = Option.some bookedAppt ∧ bookCond "a1" bookedAppt = false ∧
     (book_appointment [bookedAppt] "a1" "p1" Option.none Option.none "t1").1[0]? =
       Option.some bookedAppt) :=
  ⟨⟨by decide,
    (book_appointment_conditional [bookedAppt] "zzz" "p1" Option.none Option.none
      "t1").1 (by decide)⟩,
   by decide, by decide,
   (book_appointment_conditional [bookedAppt] "a1" "p1" Option.none Option.none
     "t1").2.2 0 bookedAppt (by decide) (by decide)⟩

/-- Claim C8: an unresolved selection, or one whose index is outside the
current option-list bounds, leaves the whole Conversation State (slots,
selections, phase) unchanged in both SELECT_PROVIDER and SELECT_TIME; the
post-processing of `interpret_selection` maps reply "5" with 2 options to
unresolved. -/
theorem selection_frame (st : ConvState) (slotsFor : String → List ApptSlot) :
    handle_select_provider st Option.none slotsFor = st ∧
    handle_select_time st Option.none = st ∧
    (∀ i, st.matched_providers.length ≤ i →
      handle_select_provider st (Option.some i) slotsFor = st) ∧
    (∀ i, st.available_slots.length ≤ i →
      handle_select_time st (Option.some i) = st) ∧
    interpret_selection_result "5" 2 = Option.none := by
  refine ⟨rfl, rfl, ?_, ?_, by decide⟩
  · intro i hi
    simp only [handle_select_provider]
    rw [dif_neg (Nat.not_lt.mpr hi)]
  · intro i hi
    simp only [handle_select_time]
    rw [dif_neg (Nat.not_lt.mpr hi)]

/-- Witness for C8: selecting option 5 of an empty provider list changes
nothing. -/
theorem selection_frame_witness :
    (initConvState.matched_providers.length ≤ 5 ∧
     handle_select_provider initConvState (Option.some 5) (fun _ => []) =
       initConvState) ∧
    interpret_selection_result "5" 2 = Option.none :=
  ⟨⟨by decide, (selection_frame initConvState (fun _ => [])).2.2.1 5 (by decide)⟩,
   (selection_frame initConvState (fun _ => [])).2.2.2.2⟩

/-- Claim C9: phone normalization keeps exactly the digit characters; a
digit-free or empty input gives the absent value; an 11-digit result starting
with 1 loses the leading digit; every other length is kept as-is; and the
scenario input normalizes as specified. -/
theorem normalize_phone_characterization :
    (∀ s : String, normalize_phone s =
      (let ds := s.data.filter Char.isDigit
       if ds = [] then Option.none
       else if ds.length = 11 ∧ ds.head? = Option.some '1' then
         Option.some (String.mk ds.tail)
       else Option.some (String.mk ds))) ∧
    normalize_phone "+1 (555) 987-6543" = Option.some "5559876543" ∧
    normalize_phone "" = Option.none ∧
    normalize_phone "no digits here" = Option.none ∧
    normalize_phone "555-0123" = Option.some "5550123" := by
  refine ⟨?_, by decide, by decide, by decide, by decide⟩
  intro s
  unfold normalize_phone
  by_cases hs : s = ""
  · subst hs
    rfl
  · rw [if_neg hs]
    dsimp only
    by_cases hd : s.data.filter Char.isDigit = []
    · simp [hd]
    · have hms : String.mk (s.data.filter Char.isDigit) ≠ "" :=
        fun h => hd (congrArg String.data h)
      rw [if_neg hms, if_neg hd]
      rfl

end PatientIntake
